import Mathlib

/-!
Shallow embedding of the admission-control and execution core of
`filesystem.py` (a filesystem/command MCP server): path guard, command
guard, encoding-fallback reader, bounded process runner, and the file
tools built on them.  Pure string/list manipulation is translated
directly; interactions with the operating system (the filesystem, the
spawned process, the text codecs) are passed in as explicit oracles so
that each code path of the Python source corresponds to a case of the
Lean function.
-/

/-! ## Constants (`filesystem.py` lines 12-15) -/

/-- `ALLOWED_EXTENSIONS` from `filesystem.py` line 12. -/
def ALLOWED_EXTENSIONS : List String :=
  [".txt", ".py", ".java", ".js", ".json", ".md", ".csv", ".log", ".yaml",
   ".yml", ".xml", ".html", ".css", ".sh", ".bat", ".clj", ".edn", ".cljs",
   ".cljc", ".dump"]

/-- `MAX_FILE_SIZE = 10 * 1024 * 1024` from `filesystem.py` line 13. -/
def MAX_FILE_SIZE : Nat := 10 * 1024 * 1024

/-- `BLOCKED_COMMANDS` from `filesystem.py` line 14. -/
def BLOCKED_COMMANDS : List String :=
  ["rm", "del", "format", "mkfs", "dd", "shutdown", "reboot", "halt",
   "poweroff"]

/-! ## Path decomposition (Python `pathlib.PurePosixPath`)

`is_safe_path` and `is_allowed_file` consult `Path(path).parts` and
`Path(path).suffix`.  We embed the POSIX flavour of `pathlib`: split on
`/`, drop empty and `.` segments, keep a root token (`//` for exactly two
leading slashes, else `/`) for absolute paths. -/

/-- Split a character list on a separator, keeping empty segments
(the raw `str.split(sep)` semantics). -/
def splitOnChar (sep : Char) : List Char → List (List Char)
  | [] => [[]]
  | c :: cs =>
    let r := splitOnChar sep cs
    if c = sep then [] :: r
    else
      match r with
      | s :: rest => (c :: s) :: rest
      | [] => [[c]]

/-- `Path(p).parts`: root token (if absolute) followed by the non-empty,
non-`.` segments of the path string. -/
def pathParts (p : String) : List String :=
  let cs := p.data
  let leading := (cs.takeWhile (fun c => c = '/')).length
  let segs := ((splitOnChar '/' cs).filter
      (fun s => decide (s ≠ []) && decide (s ≠ ['.']))).map
    (fun l => String.mk l)
  if leading = 0 then segs
  else (if leading = 2 then "//" else "/") :: segs

/-- `part.startswith('..')` on one path segment. -/
def startsWithDotDot (part : String) : Bool :=
  match part.data with
  | '.' :: '.' :: _ => true
  | _ => false

/-- `is_safe_path` (`filesystem.py` lines 17-23): reject iff some literal
segment of `Path(path).parts` starts with `..`.  The `Path(path).resolve()`
call on line 20 is dead code (its result is unused), and no pure path
decomposition raises, so the `except: return False` branch has no pure
counterpart. -/
def is_safe_path (path : String) : Bool :=
  !((pathParts path).any startsWithDotDot)

/-- The last `.`-suffix of a file name tail: Python `name.rfind('.')`
restricted to indices `> 0` with a non-empty remainder.  The head
character of the name is passed separately so a dot at index 0
(`.bashrc`) never counts. -/
def lastDotSuffix : List Char → Option (List Char)
  | [] => none
  | '.' :: rest =>
    (match lastDotSuffix rest with
     | some s => some s
     | none => if rest = [] then none else some ('.' :: rest))
  | _ :: rest => lastDotSuffix rest

/-- `Path(p).name`: the final non-root segment of the path, `""` when
there is none. -/
def pathName (p : String) : String :=
  let segs := ((splitOnChar '/' p.data).filter
      (fun s => decide (s ≠ []) && decide (s ≠ ['.']))).map
    (fun l => String.mk l)
  (segs.getLast?).getD ""

/-- `Path(p).suffix`: the extension of the final component, `""` when the
name has no interior dot. -/
def pathSuffix (p : String) : String :=
  match (pathName p).data with
  | [] => ""
  | _ :: rest =>
    match lastDotSuffix rest with
    | some s => String.mk s
    | none => ""

/-- ASCII lower-casing of a string, one character at a time (the denylist
and allowlist entries are all ASCII, so Python `str.lower()` agrees with
this on every comparison the code performs). -/
def lowerStr (s : String) : String :=
  String.mk (s.data.map Char.toLower)

/-- `is_allowed_file` (`filesystem.py` lines 25-27):
`Path(path).suffix.lower() in ALLOWED_EXTENSIONS`. -/
def is_allowed_file (path : String) : Bool :=
  ALLOWED_EXTENSIONS.contains (lowerStr (pathSuffix path))

/-! ## Command guard (`filesystem.py` lines 29-36) -/

/-- Python `str.strip()`: drop leading and trailing whitespace. -/
def pyStripChars (cs : List Char) : List Char :=
  ((cs.dropWhile Char.isWhitespace).reverse.dropWhile Char.isWhitespace).reverse

/-- Accumulator loop for Python `str.split()` (split on whitespace runs,
no empty tokens).  `acc` holds the current word, reversed. -/
def pySplitAux : List Char → List Char → List String
  | [], acc => if acc = [] then [] else [String.mk acc.reverse]
  | c :: cs, acc =>
    if c.isWhitespace then
      if acc = [] then pySplitAux cs []
      else String.mk acc.reverse :: pySplitAux cs []
    else pySplitAux cs (c :: acc)

/-- Python `str.split()` with no separator argument. -/
def pySplitChars (cs : List Char) : List String :=
  pySplitAux cs []

/-- `command.strip().split()` from `filesystem.py` line 31. -/
def cmdTokens (command : String) : List String :=
  pySplitChars (pyStripChars command.data)

/-- `is_safe_command` (`filesystem.py` lines 29-36): reject the empty
token list, otherwise reject iff the lower-cased first token is a member
of `BLOCKED_COMMANDS`. -/
def is_safe_command (command : String) : Bool :=
  match cmdTokens command with
  | [] => false
  | base :: _ => !(BLOCKED_COMMANDS.contains (lowerStr base))

/-! ## Encoding-fallback reader (`filesystem.py` lines 38-51)

One attempt of `open(file_path, 'r', encoding=enc)` followed by
`f.read()` ends in one of three ways: the decoded text, a
`UnicodeDecodeError`, or some other exception.  The file and the codec
machinery live outside the embedding, so the attempt outcome for each
candidate encoding is an oracle `String → ReadAttempt`. -/

/-- Outcome of one `open`/`read` attempt with a given encoding. -/
inductive ReadAttempt where
  | ok (text : String)
  | decodeError
  | ioError (msg : String)
deriving DecidableEq

/-- The candidate list from `filesystem.py` line 40. -/
def fallbackEncodings : List String :=
  ["utf-8", "gbk", "gb2312", "latin-1", "cp1252"]

/-- The `for encoding in encodings` loop of `read_file_content`:
first success returns its text, a decode error advances, any other
exception returns `None` at once, and falling off the end returns
`None`. -/
def readContentLoop (oracle : String → ReadAttempt) : List String → Option String
  | [] => none
  | e :: rest =>
    match oracle e with
    | .ok t => some t
    | .decodeError => readContentLoop oracle rest
    | .ioError _ => none

/-- `read_file_content` (`filesystem.py` lines 38-51). -/
def read_file_content (oracle : String → ReadAttempt) : Option String :=
  readContentLoop oracle fallbackEncodings

/-- Which exit of `read_file_content` produced the result: a successful
decode, the immediate abort on a non-decoding exception (line 49), or
the fall-out-of-the-loop `return None` (line 51). -/
inductive ReadOutcome where
  | success (text : String)
  | ioAbort (msg : String)
  | exhausted
deriving DecidableEq

/-- The same loop, remembering which exit was taken. -/
def readOutcomeLoop (oracle : String → ReadAttempt) : List String → ReadOutcome
  | [] => .exhausted
  | e :: rest =>
    match oracle e with
    | .ok t => .success t
    | .decodeError => readOutcomeLoop oracle rest
    | .ioError m => .ioAbort m

/-- Exit classification of `read_file_content` on the full candidate
list. -/
def readContentOutcome (oracle : String → ReadAttempt) : ReadOutcome :=
  readOutcomeLoop oracle fallbackEncodings

/-- The encodings the loop actually attempts, in order: every candidate
up to and including the first whose attempt is not a decode error. -/
def attemptedEncodings (oracle : String → ReadAttempt) : List String → List String
  | [] => []
  | e :: rest =>
    e :: (match oracle e with
          | .decodeError => attemptedEncodings oracle rest
          | _ => [])

/-- Spec-style reading of lines 42-47 in isolation: the text of the
first candidate whose attempt decodes, ignoring that the code aborts on
other exceptions.  Used to compare the code with the spec sentence
"return the first successful decode". -/
def firstSuccessfulDecode : List ReadAttempt → Option String
  | [] => none
  | .ok t :: _ => some t
  | _ :: rest => firstSuccessfulDecode rest

/-! ## Bounded process runner (`filesystem.py` lines 53-84)

`subprocess.run(...)` either returns a completed process (return code
plus captured stdout/stderr), raises `subprocess.TimeoutExpired` (after
killing the child), or raises some other exception.  That trichotomy is
the input of the embedded runner. -/

/-- How the one `subprocess.run` call ends. -/
inductive ProcEvent where
  | completed (returncode : Int) (stdout stderr : String)
  | timedOut
  | raised (msg : String)
deriving DecidableEq

/-- The dictionary `execute_system_command` returns.  Keys absent from a
branch of the Python dict are `none`. -/
structure ExecOutcome where
  success : Bool
  returncode : Int
  stdout : Option String
  stderr : Option String
  error : Option String
deriving DecidableEq

/-- `execute_system_command` (`filesystem.py` lines 53-84): normal
termination yields `success=True` with the process's own return code;
`TimeoutExpired` and every other exception are caught and yield
`success=False, returncode=-1` with an error message.  The function is
total: no branch re-raises. -/
def execute_system_command (ev : ProcEvent) (timeout : Nat) : ExecOutcome :=
  match ev with
  | .completed rc out err =>
    { success := true, returncode := rc, stdout := some out,
      stderr := some err, error := none }
  | .timedOut =>
    { success := false, returncode := -1, stdout := none, stderr := none,
      error := some s!"Command timed out after {timeout} seconds" }
  | .raised m =>
    { success := false, returncode := -1, stdout := none, stderr := none,
      error := some m }

/-! ## File tools (`filesystem.py` lines 86-176)

The tools consult the filesystem twice over: existence/type/size
metadata (`Path.exists`, `Path.is_file`, `Path.stat().st_size`) and file
contents.  Metadata is an oracle `String → PathInfo`; contents are a
partial map from path to byte list, with `Char → List Nat` encoding
results supplied by a codec oracle (Python `str.encode` either yields
bytes or raises `LookupError` for an unknown codec, hence `Option`). -/

/-- Filesystem metadata for one path, as the tools query it. -/
structure PathInfo where
  doesExist : Bool
  isFile : Bool
  size : Nat
deriving DecidableEq

/-- File contents: a partial map from path string to byte list. -/
def FileStore : Type := String → Option (List Nat)

/-- Update one path of a `FileStore`. -/
def setFile (fs : FileStore) (path : String) (bytes : List Nat) : FileStore :=
  fun q => if q = path then some bytes else fs q

/-- A codec oracle: `content.encode(encoding)` yields the encoded bytes,
or `none` when Python raises `LookupError: unknown encoding`. -/
def Codec : Type := String → String → Option (List Nat)

/-- `read_file` (`filesystem.py` lines 86-113): guard chain, then the
encoding-fallback read, every branch returning a report string. -/
def read_file (info : String → PathInfo) (oracle : String → ReadAttempt)
    (file_path : String) : String :=
  if !(is_safe_path file_path) then
    s!"Error: Unsafe file path: {file_path}"
  else if !(is_allowed_file file_path) then
    let sfx := pathSuffix file_path
    s!"Error: File type not allowed: {sfx}"
  else
    let i := info file_path
    if !i.doesExist then
      s!"Error: File does not exist: {file_path}"
    else if !i.isFile then
      s!"Error: Path is not a file: {file_path}"
    else if i.size > MAX_FILE_SIZE then
      s!"Error: File too large (>{MAX_FILE_SIZE} bytes): {file_path}"
    else
      match read_file_content oracle with
      | none =>
        s!"Error: Unable to read file with supported encodings: {file_path}"
      | some content =>
        let n := content.length
        s!"File: {file_path}\nSize: {n} characters\n\n{content}"

/-- `write_file` (`filesystem.py` lines 115-143).  The size check
`len(content.encode(encoding))` on line 130 runs OUTSIDE the
`try`/`except` (which only starts at line 133), so an unknown encoding
raises `LookupError` out of the tool; the embedding returns that escape
as `Except.error`.  Inside the `try`, the pure store never fails, so
every remaining branch is `Except.ok (new store, report)`. -/
def write_file (encode : Codec) (fs : FileStore) (file_path content encoding : String) :
    Except String (FileStore × String) :=
  if !(is_safe_path file_path) then
    .ok (fs, s!"Error: Unsafe file path: {file_path}")
  else if !(is_allowed_file file_path) then
    let sfx := pathSuffix file_path
    .ok (fs, s!"Error: File type not allowed: {sfx}")
  else
    match encode encoding content with
    | none => .error s!"LookupError: unknown encoding: {encoding}"
    | some bytes =>
      if bytes.length > MAX_FILE_SIZE then
        .ok (fs, s!"Error: Content too large (>{MAX_FILE_SIZE} bytes)")
      else
        let n := content.length
        .ok (setFile fs file_path bytes,
             s!"Successfully wrote {n} characters to: {file_path}")

/-- `append_file` (`filesystem.py` lines 145-176).  Unlike `write_file`,
the encode and the size check sit inside the `try`, so a `LookupError`
is caught by `except Exception` and reported as a string.  Open mode
`'a'` creates a missing file, so the current bytes default to `[]`. -/
def append_file (encode : Codec) (fs : FileStore) (file_path content encoding : String) :
    FileStore × String :=
  if !(is_safe_path file_path) then
    (fs, s!"Error: Unsafe file path: {file_path}")
  else if !(is_allowed_file file_path) then
    let sfx := pathSuffix file_path
    (fs, s!"Error: File type not allowed: {sfx}")
  else
    let current := (fs file_path).getD []
    match encode encoding content with
    | none => (fs, s!"Error appending to file: unknown encoding: {encoding}")
    | some bytes =>
      if current.length + bytes.length > MAX_FILE_SIZE then
        (fs, s!"Error: File would exceed size limit (>{MAX_FILE_SIZE} bytes)")
      else
        let n := content.length
        (setFile fs file_path (current ++ bytes),
         s!"Successfully appended {n} characters to: {file_path}")

/-! ## Search-result interpretation (`filesystem.py` lines 394-433)

After the guards and the `ag` command construction, `search_files_ag`
runs `ag` once and interprets the completed process (or the timeout /
exception) into a report string.  The `subprocess.run` outcome is the
same `ProcEvent` trichotomy as for the generic runner. -/

/-- Eighty dashes, Python's `'-' * 80`. -/
def dashes80 : String := String.mk (List.replicate 80 '-')

/-- Python `repr` of a bool inside an f-string. -/
def pyBoolRepr : Bool → String
  | true => "True"
  | false => "False"

/-- `stdout.count('\n')`: occurrences of the newline character. -/
def countNewlines (s : String) : Nat :=
  (s.data.filter (fun c => c = '\n')).length

/-- Python `"\n".join(lines)`. -/
def joinLines : List String → String
  | [] => ""
  | [s] => s
  | s :: rest => s ++ "\n" ++ joinLines rest

/-- The success-path report of `search_files_ag` (lines 411-428):
header lines, optional file-type line, separator, raw `ag` output,
separator, and the newline count of the output. -/
def formatSearchOutput (pattern absPath : String) (case_sensitive : Bool)
    (file_type : Option String) (stdout : String) : String :=
  let cs := pyBoolRepr case_sensitive
  let matchCount := countNewlines stdout
  let ftLines :=
    match file_type with
    | some ft => if ft.data ≠ [] then [s!"File Type: {ft}"] else []
    | none => []
  joinLines
    ([s!"Search Results for: {pattern}",
      s!"Search Path: {absPath}",
      s!"Case Sensitive: {cs}"]
     ++ ftLines
     ++ [s!"\n{dashes80}\n", stdout, s!"\n{dashes80}",
         s!"Total lines matched: {matchCount}"])

/-- The exit-code interpretation of `search_files_ag` (lines 394-433):
return code `> 1` reports an `ag` error, return code `1` or blank stdout
reports no matches, otherwise the formatted results; timeout and any
other exception are caught into report strings. -/
def searchResultOf (pattern absPath : String) (case_sensitive : Bool)
    (file_type : Option String) (ev : ProcEvent) : String :=
  match ev with
  | .completed rc stdout stderr =>
    if rc > 1 then
      s!"Error running ag: {stderr}"
    else if rc = 1 || pyStripChars stdout.data = [] then
      s!"No matches found for pattern: {pattern}\nSearch path: {absPath}"
    else
      formatSearchOutput pattern absPath case_sensitive file_type stdout
  | .timedOut => "Error: Search timed out after 30 seconds"
  | .raised m => s!"Error executing ag search: {m}"

/-! ## Concrete fixtures used by the witness theorems -/

/-- A store holding one file `a.txt` with the single byte `65`. -/
def fsA : FileStore :=
  fun p => if p = "a.txt" then some [65] else none

/-- The empty store. -/
def fsEmpty : FileStore := fun _ => none

/-- A codec that knows only `utf-8` (as raw code points); every other
name is an unknown encoding, as Python's codec lookup treats `bogus`. -/
def codecUtf8Only : Codec :=
  fun enc s => if enc = "utf-8" then some (s.data.map Char.toNat) else none

/-- Metadata oracle: every path is an existing 5-byte regular file. -/
def infoSmallFile : String → PathInfo :=
  fun _ => { doesExist := true, isFile := true, size := 5 }

/-- Attempt oracle: opening with `utf-8` hits a permission error. -/
def oraclePermDenied : String → ReadAttempt :=
  fun e => if e = "utf-8" then .ioError "PermissionError: Errno 13" else .decodeError

/-- Attempt oracle: every candidate encoding raises a decode error. -/
def oracleAllDecodeFail : String → ReadAttempt :=
  fun _ => .decodeError

/-- Attempt oracle: `utf-8` fails to decode, everything else decodes to
`"hola"` (a GBK-only file). -/
def oracleGbkFile : String → ReadAttempt :=
  fun e => if e = "utf-8" then .decodeError else .ok "hola"

/-- Attempt oracle: only `latin-1` decodes. -/
def oracleLatin1Only : String → ReadAttempt :=
  fun e => if e = "latin-1" then .ok "x" else .decodeError

/-! ## Helper lemmas -/

/-- A whitespace-only character list strips to nothing. -/
theorem pyStripChars_all_ws (cs : List Char)
    (h : ∀ ch ∈ cs, ch.isWhitespace) : pyStripChars cs = [] := by
  have h1 : cs.dropWhile Char.isWhitespace = [] :=
    List.dropWhile_eq_nil_iff.mpr h
  simp [pyStripChars, h1]

/-- A run of decode errors followed by a non-decoding error makes the
read loop return `none` as soon as the error is hit. -/
theorem readContentLoop_io_abort (oracle : String → ReadAttempt)
    (pre rest : List String) (e m : String)
    (hpre : ∀ x ∈ pre, oracle x = ReadAttempt.decodeError)
    (hio : oracle e = ReadAttempt.ioError m) :
    readContentLoop oracle (pre ++ e :: rest) = none := by
  induction pre with
  | nil => simp [readContentLoop, hio]
  | cons x xs ih =>
    have hx : oracle x = ReadAttempt.decodeError := hpre x (by simp)
    simpa [readContentLoop, hx] using ih (fun y hy => hpre y (by simp [hy]))

/-- The attempts stop at the first candidate whose outcome is not a
decode error. -/
theorem attemptedEncodings_stop (oracle : String → ReadAttempt)
    (pre rest : List String) (e m : String)
    (hpre : ∀ x ∈ pre, oracle x = ReadAttempt.decodeError)
    (hio : oracle e = ReadAttempt.ioError m) :
    attemptedEncodings oracle (pre ++ e :: rest) = pre ++ [e] := by
  induction pre with
  | nil => simp [attemptedEncodings, hio]
  | cons x xs ih =>
    have hx : oracle x = ReadAttempt.decodeError := hpre x (by simp)
    simpa [attemptedEncodings, hx] using ih (fun y hy => hpre y (by simp [hy]))

/-- When no candidate hits a non-decoding error, the read loop computes
exactly the first successful decode. -/
theorem readContentLoop_eq_firstDecode (oracle : String → ReadAttempt)
    (l : List String) (h : ∀ e ∈ l, ∀ m, oracle e ≠ ReadAttempt.ioError m) :
    readContentLoop oracle l = firstSuccessfulDecode (l.map oracle) := by
  induction l with
  | nil => rfl
  | cons e rest ih =>
    cases hc : oracle e with
    | ok t => simp [readContentLoop, firstSuccessfulDecode, hc]
    | decodeError =>
      simpa [readContentLoop, firstSuccessfulDecode, hc] using
        ih (fun x hx m => h x (by simp [hx]) m)
    | ioError m => exact absurd hc (h e (by simp) m)

/-- If some listed encoding is guaranteed not to raise a decode error,
the loop cannot fall off the end of the list, and a `none` result can
only come from the immediate-abort exit. -/
theorem readLoop_no_exhaust (oracle : String → ReadAttempt)
    (l : List String) (e : String) (he : e ∈ l)
    (h : oracle e ≠ ReadAttempt.decodeError) :
    readOutcomeLoop oracle l ≠ ReadOutcome.exhausted ∧
    (readContentLoop oracle l = none →
      ∃ m, readOutcomeLoop oracle l = ReadOutcome.ioAbort m) := by
  induction l with
  | nil => cases he
  | cons x rest ih =>
    cases hx : oracle x with
    | ok t =>
      refine ⟨by simp [readOutcomeLoop, hx], fun hc => ?_⟩
      simp [readContentLoop, hx] at hc
    | ioError m =>
      exact ⟨by simp [readOutcomeLoop, hx],
             fun _ => ⟨m, by simp [readOutcomeLoop, hx]⟩⟩
    | decodeError =>
      have he' : e ∈ rest := by
        rcases List.mem_cons.mp he with rfl | hr
        · exact absurd hx h
        · exact hr
      simpa [readOutcomeLoop, readContentLoop, hx] using ih he'

/-! ## Claim theorems -/

/-- C1: any path whose decomposed segments contain a literal `..`
segment is rejected by `is_safe_path`.  The check takes only the path
string — it has no operation/mode parameter — so the rejection is the
same for read, write, append, list, search and working-directory
checks, all of which call this one function first. -/
theorem dotdot_segment_always_rejected (p : String)
    (h : ".." ∈ pathParts p) : is_safe_path p = false := by
  have ha : (pathParts p).any startsWithDotDot = true :=
    List.any_eq_true.mpr ⟨"..", h, by decide⟩
  simp [is_safe_path, ha]

/-- Witness for C1 at the concrete path `a/../b.txt`. -/
theorem dotdot_segment_always_rejected_witness :
    is_safe_path "a/../b.txt" = false :=
  dotdot_segment_always_rejected "a/../b.txt" (by decide)

/-- C2: `is_safe_command` rejects empty/whitespace-only command lines,
and otherwise its verdict is exactly the denylist test on the
lower-cased first whitespace-delimited token — so a command whose first
token is benign is accepted even when a denylisted token appears after
`&&` or `;` (it is just a later token). -/
theorem command_guard_first_token (c : String) :
    ((∀ ch ∈ c.data, ch.isWhitespace) → is_safe_command c = false) ∧
    (∀ t ts, cmdTokens c = t :: ts →
      is_safe_command c = !(BLOCKED_COMMANDS.contains (lowerStr t))) := by
  constructor
  · intro hw
    have h1 : pyStripChars c.data = [] := pyStripChars_all_ws c.data hw
    simp [is_safe_command, cmdTokens, h1, pySplitChars, pySplitAux]
  · intro t ts h
    simp [is_safe_command, h]

/-- Witness for C2: a compound command whose first token is benign but
which names `rm` after `&&` is accepted. -/
theorem command_guard_first_token_witness :
    is_safe_command "echo hi && rm -rf /" = true :=
  ((command_guard_first_token "echo hi && rm -rf /").2 "echo"
      ["hi", "&&", "rm", "-rf", "/"] (by decide)).trans (by decide)

/-- C3: normal termination of the child — at any exit code — yields
`success = true` with the child's own return code, while the
infrastructure-failure branches (timeout, spawn/other exception) yield
`success = false`. -/
theorem runner_exit_code_distinction (rc : Int) (out err : String)
    (t : Nat) (m : String) :
    (execute_system_command (ProcEvent.completed rc out err) t).success = true ∧
    (execute_system_command (ProcEvent.completed rc out err) t).returncode = rc ∧
    (execute_system_command ProcEvent.timedOut t).success = false ∧
    (execute_system_command (ProcEvent.raised m) t).success = false :=
  ⟨rfl, rfl, rfl, rfl⟩

/-- C4: when `subprocess.run` raises `TimeoutExpired` (Python kills the
child before raising it), the runner returns `success = false` with the
timeout message and the sentinel return code `-1`; the embedding is a
total function on the event trichotomy, so no branch re-raises. -/
theorem runner_timeout_outcome (t : Nat) :
    (execute_system_command ProcEvent.timedOut t).success = false ∧
    (execute_system_command ProcEvent.timedOut t).error =
      some s!"Command timed out after {t} seconds" ∧
    (execute_system_command ProcEvent.timedOut t).returncode = -1 :=
  ⟨rfl, rfl, rfl⟩

/-- C5: on a file currently holding `c1`, an append whose post-append
size stays within `MAX_FILE_SIZE` leaves the file holding exactly
`c1 ++ bytes`, and an append that would exceed the ceiling leaves the
whole store — in particular the file — byte-for-byte unchanged. -/
theorem append_file_size_gate (encode : Codec) (fs : FileStore)
    (path content encoding : String) (c1 bytes : List Nat)
    (hfile : fs path = some c1)
    (henc : encode encoding content = some bytes)
    (hsafe : is_safe_path path = true)
    (hallow : is_allowed_file path = true) :
    (c1.length + bytes.length ≤ MAX_FILE_SIZE →
      (append_file encode fs path content encoding).1 path =
        some (c1 ++ bytes)) ∧
    (c1.length + bytes.length > MAX_FILE_SIZE →
      (append_file encode fs path content encoding).1 = fs) := by
  constructor
  · intro hle
    have hng : ¬(c1.length + bytes.length > MAX_FILE_SIZE) := not_lt.mpr hle
    simp [append_file, hsafe, hallow, hfile, henc, hng, setFile]
  · intro hgt
    simp [append_file, hsafe, hallow, hfile, henc, hgt]

/-- Witness for C5: appending byte `66` to `a.txt` holding `[65]`. -/
theorem append_file_size_gate_witness :
    (append_file codecUtf8Only fsA "a.txt" "B" "utf-8").1 "a.txt" =
      some [65, 66] :=
  (append_file_size_gate codecUtf8Only fsA "a.txt" "B" "utf-8" [65] [66]
      rfl rfl (by decide) (by decide)).1 (by decide)

/-- C6 counterexample: a permission error while opening with the first
encoding is surfaced by `read_file` as the generic
`Unable to read file with supported encodings` message — the very same
string produced when every candidate fails to decode — so the surfaced
error does not identify the I/O error and is exactly an
unsupported-encoding outcome. -/
theorem io_error_not_identified_counterexample :
    read_file infoSmallFile oraclePermDenied "f.txt" =
      "Error: Unable to read file with supported encodings: f.txt" ∧
    read_file infoSmallFile oraclePermDenied "f.txt" =
      read_file infoSmallFile oracleAllDecodeFail "f.txt" := by
  constructor
  · decide
  · decide

/-- C6 amended: a non-decoding I/O error at any position in the
candidate list aborts the attempt sequence immediately (no later
candidate is tried), but the result collapses to `None`, which
`read_file` surfaces as the generic unsupported-encodings message, not
as the I/O error. -/
theorem io_error_aborts_remaining_attempts (oracle : String → ReadAttempt)
    (info : String → PathInfo) (path : String)
    (pre rest : List String) (e m : String)
    (hsplit : fallbackEncodings = pre ++ e :: rest)
    (hpre : ∀ x ∈ pre, oracle x = ReadAttempt.decodeError)
    (hio : oracle e = ReadAttempt.ioError m)
    (hsafe : is_safe_path path = true)
    (hallow : is_allowed_file path = true)
    (hexist : (info path).doesExist = true)
    (hfile : (info path).isFile = true)
    (hsize : ¬((info path).size > MAX_FILE_SIZE)) :
    attemptedEncodings oracle fallbackEncodings = pre ++ [e] ∧
    read_file_content oracle = none ∧
    read_file info oracle path =
      s!"Error: Unable to read file with supported encodings: {path}" := by
  have hnone : read_file_content oracle = none := by
    rw [read_file_content, hsplit]
    exact readContentLoop_io_abort oracle pre rest e m hpre hio
  refine ⟨?_, hnone, ?_⟩
  · rw [hsplit]
    exact attemptedEncodings_stop oracle pre rest e m hpre hio
  · simp [read_file, hsafe, hallow, hexist, hfile, hsize, hnone]

/-- Witness for the amended C6: the permission-denied oracle aborts
after the single `utf-8` attempt and surfaces the generic message. -/
theorem io_error_aborts_remaining_attempts_witness :
    attemptedEncodings oraclePermDenied fallbackEncodings = ["utf-8"] ∧
    read_file_content oraclePermDenied = none ∧
    read_file infoSmallFile oraclePermDenied "f.txt" =
      "Error: Unable to read file with supported encodings: f.txt" :=
  io_error_aborts_remaining_attempts oraclePermDenied infoSmallFile "f.txt"
    [] ["gbk", "gb2312", "latin-1", "cp1252"] "utf-8"
    "PermissionError: Errno 13" rfl (by simp) rfl (by decide) (by decide)
    rfl rfl (by decide)

/-- C7: when no candidate encoding hits a non-decoding I/O error, the
reader returns the text of the first candidate that decodes, in the
fixed order utf-8, gbk, gb2312, latin-1, cp1252; in particular a file
that is invalid UTF-8 but valid GBK comes back GBK-decoded. -/
theorem encoding_fallback_first_success (oracle : String → ReadAttempt)
    (t : String)
    (hno : ∀ e ∈ fallbackEncodings, ∀ m, oracle e ≠ ReadAttempt.ioError m) :
    read_file_content oracle =
      firstSuccessfulDecode (fallbackEncodings.map oracle) ∧
    (oracle "utf-8" = ReadAttempt.decodeError →
      oracle "gbk" = ReadAttempt.ok t →
      read_file_content oracle = some t) := by
  constructor
  · exact readContentLoop_eq_firstDecode oracle fallbackEncodings hno
  · intro h1 h2
    simp [read_file_content, fallbackEncodings, readContentLoop, h1, h2]

/-- Witness for C7: the GBK-only file decodes to its GBK text. -/
theorem encoding_fallback_first_success_witness :
    read_file_content oracleGbkFile = some "hola" :=
  (encoding_fallback_first_success oracleGbkFile "hola"
    (by
      intro e he m h
      revert h
      unfold oracleGbkFile
      split <;> simp)).2 rfl rfl

/-- C8 (failing input for the claim): in `write_file` the size check
`len(content.encode(encoding))` runs before the `try` block begins, so
calling the tool with an unknown encoding raises `LookupError` out of
the tool uncaught instead of returning an error string — contradicting
the policy that every failure path returns a human-readable message
(`append_file` performs the same encode inside its `try`, catching it). -/
theorem write_file_unknown_encoding_escapes :
    write_file codecUtf8Only fsEmpty "a.txt" "hi" "bogus" =
      Except.error "LookupError: unknown encoding: bogus" := by
  rfl

/-- C9: the `ag` exit-code convention — return code above 1 reports a
tool-level error; return code 1 reports the no-matches outcome (still a
normal report string, not an error); return code 0 with non-blank
output returns the formatted matches. -/
theorem search_exit_code_convention (pattern absPath : String)
    (cs : Bool) (ft : Option String) (rc : Int) (out err : String) :
    (rc > 1 → searchResultOf pattern absPath cs ft
        (ProcEvent.completed rc out err) = s!"Error running ag: {err}") ∧
    (rc = 1 → searchResultOf pattern absPath cs ft
        (ProcEvent.completed rc out err) =
        s!"No matches found for pattern: {pattern}\nSearch path: {absPath}") ∧
    (rc = 0 → pyStripChars out.data ≠ [] →
      searchResultOf pattern absPath cs ft (ProcEvent.completed rc out err) =
        formatSearchOutput pattern absPath cs ft out) := by
  refine ⟨?_, ?_, ?_⟩
  · intro h
    simp [searchResultOf, h]
  · intro h
    subst h
    simp [searchResultOf]
  · intro h hstrip
    subst h
    simp [searchResultOf, hstrip]

/-- Witness for C9 at return code 2. -/
theorem search_exit_code_convention_witness :
    searchResultOf "p" "/s" false none (ProcEvent.completed 2 "" "boom") =
      "Error running ag: boom" :=
  (search_exit_code_convention "p" "/s" false none 2 "" "boom").1 (by decide)

/-- C10: as long as the `latin-1` attempt cannot end in a decode error
(Python's latin-1 codec decodes every byte sequence), the loop of
`read_file_content` never falls off the end of the candidate list, and
a `None` result can only arise from the immediate abort on a
non-decoding I/O error. -/
theorem latin1_makes_exhaustion_unreachable (oracle : String → ReadAttempt)
    (h : oracle "latin-1" ≠ ReadAttempt.decodeError) :
    readContentOutcome oracle ≠ ReadOutcome.exhausted ∧
    (read_file_content oracle = none →
      ∃ m, readContentOutcome oracle = ReadOutcome.ioAbort m) :=
  readLoop_no_exhaust oracle fallbackEncodings "latin-1" (by decide) h

/-- Witness for C10 with the latin-1-only oracle. -/
theorem latin1_makes_exhaustion_unreachable_witness :
    readContentOutcome oracleLatin1Only ≠ ReadOutcome.exhausted :=
  (latin1_makes_exhaustion_unreachable oracleLatin1Only (by decide)).1
